import Mathlib

/-!
Shallow embedding of `src/assets/yotpo-reviews.js` (the `YotpoReviews` web
component) and proofs about its pagination window, star rendering, histogram,
state-transition handlers, voting, and fetch-cancellation protocol.

JS numbers that are used as integers are modelled by `Nat`; the fractional
average rating is modelled by `ℚ`; JS `Set` insertion is modelled by `List`
cons (the handler guards against duplicates); DOM rendering is abstracted to
the data that determines it (star counts, bar widths, page items, an
error-vs-main view tag).
-/

/-- An entry of the pagination window: a page number or the `'...'` ellipsis
literal (source `#generatePageNumbers`, lines 963–979). -/
inductive PageItem where
  | page (n : ℕ)
  | ellipsis
deriving DecidableEq, Repr

/-- Source `#generatePageNumbers(current, total)` (lines 963–979):
`total ≤ 7` gives `[1..total]`; else `current ≤ 4` gives `[1,2,3,4,5,'...',total]`;
else `current ≥ total - 3` gives `[1,'...',total-4,total-3,total-2,total-1,total]`;
else `[1,'...',current-1,current,current+1,'...',total]`. -/
def generatePageNumbers (current total : ℕ) : List PageItem :=
  if total ≤ 7 then
    (List.range total).map (fun i => PageItem.page (i + 1))
  else if current ≤ 4 then
    [PageItem.page 1, PageItem.page 2, PageItem.page 3, PageItem.page 4,
     PageItem.page 5, PageItem.ellipsis, PageItem.page total]
  else if total - 3 ≤ current then
    [PageItem.page 1, PageItem.ellipsis, PageItem.page (total - 4),
     PageItem.page (total - 3), PageItem.page (total - 2),
     PageItem.page (total - 1), PageItem.page total]
  else
    [PageItem.page 1, PageItem.ellipsis, PageItem.page (current - 1),
     PageItem.page current, PageItem.page (current + 1), PageItem.ellipsis,
     PageItem.page total]

/-- The numeric entries of a pagination window, in order. -/
def pageNums (l : List PageItem) : List ℕ :=
  l.filterMap (fun x => match x with | PageItem.page n => some n | PageItem.ellipsis => none)

/-- Star counts produced by `#renderStars` (lines 345–360): the number of
filled, half and empty star glyphs emitted into the markup. -/
structure StarCounts where
  filled : ℕ
  half : ℕ
  empty : ℕ
deriving DecidableEq, Repr

/-- Source `#renderStars(rating)` (lines 345–360).
`fullStars = Math.floor(rating)`; `hasHalf = rating - fullStars >= 0.3 && <= 0.7`;
`emptyStars = 5 - fullStars - (hasHalf ? 1 : 0) - (rating - fullStars > 0.7 ? 1 : 0)`;
`extraFull = rating - fullStars > 0.7 ? 1 : 0`.
The markup repeats the filled glyph `fullStars + extraFull` times, the half glyph
`hasHalf ? 1 : 0` times, and the empty glyph `Math.max(0, emptyStars - extraFull)`
times; `Int.toNat` plays the role of `Math.max(0, ·)`. -/
def renderStars (rating : ℚ) : StarCounts :=
  let fullStars : ℕ := (⌊rating⌋).toNat
  let frac : ℚ := rating - (fullStars : ℚ)
  let hasHalf : Bool := decide ((3 : ℚ)/10 ≤ frac) && decide (frac ≤ (7 : ℚ)/10)
  let extraFull : ℕ := if (7 : ℚ)/10 < frac then 1 else 0
  let emptyStars : ℤ := 5 - (fullStars : ℤ) - (if hasHalf then 1 else 0) - (extraFull : ℤ)
  { filled := fullStars + extraFull
    half := if hasHalf then 1 else 0
    empty := (emptyStars - (extraFull : ℤ)).toNat }

/-- C2: `#generatePageNumbers` produces the full sequence when `total ≤ 7`, the
left window `[1,2,3,4,5,'...',t]` when `t > 7` and `c ≤ 4`, the right window
when `c` is within 3 of the end, the centered window otherwise, and on
`t = 10` gives the three listed example windows. -/
theorem generatePageNumbers_spec (c t : ℕ) (hc : 1 ≤ c) (hct : c ≤ t) :
    (t ≤ 7 → generatePageNumbers c t = (List.range t).map (fun i => PageItem.page (i + 1)))
    ∧ (7 < t → c ≤ 4 →
        generatePageNumbers c t =
          [PageItem.page 1, PageItem.page 2, PageItem.page 3, PageItem.page 4,
           PageItem.page 5, PageItem.ellipsis, PageItem.page t])
    ∧ (7 < t → t - 3 ≤ c →
        generatePageNumbers c t =
          [PageItem.page 1, PageItem.ellipsis, PageItem.page (t - 4),
           PageItem.page (t - 3), PageItem.page (t - 2), PageItem.page (t - 1),
           PageItem.page t])
    ∧ (7 < t → 4 < c → c < t - 3 →
        generatePageNumbers c t =
          [PageItem.page 1, PageItem.ellipsis, PageItem.page (c - 1),
           PageItem.page c, PageItem.page (c + 1), PageItem.ellipsis,
           PageItem.page t])
    ∧ generatePageNumbers 1 10 =
        [PageItem.page 1, PageItem.page 2, PageItem.page 3, PageItem.page 4,
         PageItem.page 5, PageItem.ellipsis, PageItem.page 10]
    ∧ generatePageNumbers 9 10 =
        [PageItem.page 1, PageItem.ellipsis, PageItem.page 6, PageItem.page 7,
         PageItem.page 8, PageItem.page 9, PageItem.page 10]
    ∧ generatePageNumbers 5 10 =
        [PageItem.page 1, PageItem.ellipsis, PageItem.page 4, PageItem.page 5,
         PageItem.page 6, PageItem.ellipsis, PageItem.page 10] := by
  refine ⟨?_, ?_, ?_, ?_, by decide, by decide, by decide⟩
  · intro h7
    simp [generatePageNumbers, h7]
  · intro h7 h4
    simp only [generatePageNumbers]
    rw [if_neg (by omega), if_pos h4]
  · intro h7 hend
    simp only [generatePageNumbers]
    rw [if_neg (by omega), if_neg (by omega), if_pos hend]
  · intro h7 h4 hmid
    simp only [generatePageNumbers]
    rw [if_neg (by omega), if_neg (by omega), if_neg (by omega)]

/-- Witness for C2, at `c = 5`, `t = 10`. -/
theorem generatePageNumbers_spec_witness :
    1 ≤ 5 ∧ 5 ≤ 10 ∧
      generatePageNumbers 5 10 =
        [PageItem.page 1, PageItem.ellipsis, PageItem.page 4, PageItem.page 5,
         PageItem.page 6, PageItem.ellipsis, PageItem.page 10] :=
  ⟨by decide, by decide, (generatePageNumbers_spec 5 10 (by decide) (by decide)).2.2.2.2.2.2⟩

/-- C10: for `t > 7` and `1 ≤ c ≤ t`, the window has exactly 7 entries, starts
at page 1, ends at page `t`, and its numeric entries are strictly increasing. -/
theorem generatePageNumbers_window_shape (c t : ℕ) (h7 : 7 < t) (hc : 1 ≤ c) (hct : c ≤ t) :
    (generatePageNumbers c t).length = 7
    ∧ (generatePageNumbers c t).head? = some (PageItem.page 1)
    ∧ (generatePageNumbers c t).getLast? = some (PageItem.page t)
    ∧ List.Chain' (· < ·) (pageNums (generatePageNumbers c t)) := by
  simp only [generatePageNumbers, if_neg (by omega : ¬ t ≤ 7)]
  by_cases h4 : c ≤ 4
  · rw [if_pos h4]
    refine ⟨rfl, rfl, rfl, ?_⟩
    simp [pageNums, List.chain'_cons]
    omega
  · rw [if_neg h4]
    by_cases hend : t - 3 ≤ c
    · rw [if_pos hend]
      refine ⟨rfl, rfl, rfl, ?_⟩
      simp [pageNums, List.chain'_cons]
      omega
    · rw [if_neg hend]
      refine ⟨rfl, rfl, rfl, ?_⟩
      simp [pageNums, List.chain'_cons]
      omega

/-- Witness for C10, at `c = 9`, `t = 10`. -/
theorem generatePageNumbers_window_shape_witness :
    (generatePageNumbers 9 10).length = 7
    ∧ (generatePageNumbers 9 10).head? = some (PageItem.page 1)
    ∧ (generatePageNumbers 9 10).getLast? = some (PageItem.page 10)
    ∧ List.Chain' (· < ·) (pageNums (generatePageNumbers 9 10)) :=
  generatePageNumbers_window_shape 9 10 (by decide) (by decide) (by decide)

/-- C1 evidence: at rating 3.8 the source renders 4 filled, 0 half and 0 empty
stars — 4 glyphs in total, not 5. The round-up star is subtracted once inside
`emptyStars` (line 348) and again in the rendered count (line 357), so one
empty-star slot is lost whenever the fractional part exceeds 0.7 and the
rating is below 4.7. -/
theorem renderStars_total_not_five :
    renderStars (19/5) = { filled := 4, half := 0, empty := 0 }
    ∧ (renderStars (19/5)).filled + (renderStars (19/5)).half
        + (renderStars (19/5)).empty ≠ 5 := by
  have hf : (⌊(19/5 : ℚ)⌋) = 3 := by norm_num
  have h3 : (⌊(19/5 : ℚ)⌋).toNat = 3 := by rw [hf]; rfl
  have hs : renderStars (19/5) = { filled := 4, half := 0, empty := 0 } := by
    simp only [renderStars, h3]
    norm_num
  exact ⟨hs, by rw [hs]; decide⟩

/-- A review record (`YotpoReview`), restricted to the fields the component
reads: `id`, `title`, `content`, `score`, the reviewer name, the verified
flag, the creation date, and the two vote counters mutated by `voteHelpful`. -/
structure Review where
  id : ℕ
  title : String
  content : String
  score : ℕ
  display_name : String
  verified_buyer : Bool
  created_at : String
  votes_up : ℕ
  votes_down : ℕ
deriving DecidableEq, Repr

/-- The `YotpoBottomline` summary: total review count, average score, and the
per-star distribution object (modelled as an association list keyed by star
value; a missing key reads as 0, like `distribution[String(star)] || 0`). -/
structure Bottomline where
  total_review : ℕ
  average_score : ℚ
  star_distribution : Option (List (ℕ × ℕ))
deriving DecidableEq, Repr

/-- The `YotpoPagination` record: current page, page size, total item count. -/
structure Pagination where
  page : ℕ
  per_page : ℕ
  total : ℕ
deriving DecidableEq, Repr

/-- Vote direction (`'up' | 'down'`). -/
inductive Vote where
  | up
  | down
deriving DecidableEq, Repr

/-- What `innerHTML` currently shows, at the granularity the claims need:
the main component markup or the `#renderError` view with its message. -/
inductive RenderedView where
  | main
  | error (msg : String)
deriving DecidableEq, Repr

/-- The review form data read by `submitReview` via `FormData`; a missing
`score` (no star selected) is `none`. -/
structure ReviewFormData where
  score : Option ℕ
  title : String
  content : String
  display_name : String
  email : String
deriving DecidableEq, Repr

/-- The component state: the private fields of `YotpoReviews` (lines 54–88)
plus observable effects. `storedVotes` is the `yotpo-voted-reviews`
localStorage entry; `view` abstracts `innerHTML`; `fetchCalls` counts entries
into `#fetchReviews`; `listingRequests` records issued listing GET URLs;
`voteRequests` records issued vote POSTs; `reviewSubmits` counts submission
POSTs; `scrollCalls` counts `scrollIntoView` calls; `controllerGen` is the
abort-controller generation (bumped each time a new `AbortController` is
created, i.e. each time the prior in-flight request is aborted). -/
structure CompState where
  appKey : String
  productId : String
  bottomline : Option Bottomline
  reviews : List Review
  pagination : Option Pagination
  currentSort : String
  currentDirection : String
  currentStarFilter : Option ℕ
  currentPage : ℕ
  isLoading : Bool
  showForm : Bool
  votedReviews : List ℕ
  storedVotes : List ℕ
  view : RenderedView
  formMessage : Option String
  fetchCalls : ℕ
  listingRequests : List String
  voteRequests : List (ℕ × Vote)
  reviewSubmits : ℕ
  scrollCalls : ℕ
  controllerGen : ℕ
deriving DecidableEq, Repr

/-- The component's fixed page size: `#perPage = 10`, never reassigned. -/
def perPage : ℕ := 10

/-- Source `#buildApiUrl` (lines 170–184). `URLSearchParams` serialization is
modelled by plain concatenation: every key is fixed and every value is a
number or one of the fixed sort tokens, so no percent-encoding applies. -/
def buildApiUrl (s : CompState) : String :=
  let baseUrl := "https://api-cdn.yotpo.com/v1/widget/" ++ s.appKey ++ "/products/"
      ++ s.productId ++ "/reviews.json"
  let params := "per_page=" ++ toString perPage ++ "&page=" ++ toString s.currentPage
      ++ "&sort=" ++ s.currentSort ++ "&direction=" ++ s.currentDirection
  let params := match s.currentStarFilter with
    | some star => params ++ "&star=" ++ toString star
    | none => params
  baseUrl ++ "?" ++ params

/-- The synchronous part of `#fetchReviews` (lines 189–204), up to issuing the
network request: guard on missing `app-key` / `product-id` (empty attribute
reads render the error view and return), abort the prior controller and make
a new one, set the loading flag, re-render, and issue the GET. -/
def fetchReviewsStart (s : CompState) : CompState :=
  let s1 := { s with fetchCalls := s.fetchCalls + 1 }
  if s1.appKey = "" ∨ s1.productId = "" then
    { s1 with view := RenderedView.error "Missing app-key or product-id attribute" }
  else
    { s1 with
        controllerGen := s1.controllerGen + 1
        isLoading := true
        view := RenderedView.main
        listingRequests := s1.listingRequests ++ [buildApiUrl s1] }

/-- The success continuation of `#fetchReviews` (lines 217–221): replace the
three data collections wholesale, clear the loading flag, re-render. -/
def fetchReviewsSuccess (s : CompState) (b : Option Bottomline) (revs : List Review)
    (pg : Option Pagination) : CompState :=
  { s with bottomline := b, reviews := revs, pagination := pg,
           isLoading := false, view := RenderedView.main }

/-- The non-abort failure path of `#fetchReviews` (lines 226–227): clear the
loading flag and render the error view. -/
def fetchReviewsFailure (s : CompState) (msg : String) : CompState :=
  { s with isLoading := false, view := RenderedView.error msg }

/-- Source `handleSort` (lines 650–659): split the select value on `-` into
sort key and direction, reset the page to 1, refetch. A component missing
from the value (JS `undefined`) is modelled by the empty string. -/
def handleSort (s : CompState) (value : String) : CompState :=
  let parts := value.splitOn "-"
  let sort := parts.headD ""
  let direction := parts.getD 1 ""
  fetchReviewsStart
    { s with currentSort := sort, currentDirection := direction, currentPage := 1 }

/-- Source `filterByStar` (lines 665–673): selecting the active star clears
the filter, any other star becomes the filter; page resets to 1; refetch. -/
def filterByStar (s : CompState) (star : ℕ) : CompState :=
  let s1 :=
    if s.currentStarFilter = some star then { s with currentStarFilter := none }
    else { s with currentStarFilter := some star }
  fetchReviewsStart { s1 with currentPage := 1 }

/-- Source `clearStarFilter` (lines 678–682). -/
def clearStarFilter (s : CompState) : CompState :=
  fetchReviewsStart { s with currentStarFilter := none, currentPage := 1 }

/-- `totalPages` as computed by `goToPage` (line 986):
`Math.ceil(pagination.total / perPage)` when pagination data exists, else 1. -/
def totalPagesOf (s : CompState) : ℕ :=
  match s.pagination with
  | some pg => (pg.total + perPage - 1) / perPage
  | none => 1

/-- Source `goToPage` (lines 985–995): out-of-range pages return early;
otherwise set the page, refetch, and scroll the component into view. -/
def goToPage (s : CompState) (page : ℕ) : CompState :=
  if page < 1 ∨ totalPagesOf s < page then s
  else
    let s1 := fetchReviewsStart { s with currentPage := page }
    { s1 with scrollCalls := s1.scrollCalls + 1 }

/-- `this.#reviews.find(r => r.id === id)` followed by a mutation of the found
object: update the first review with the given id, leave the rest alone. -/
def updateFirstReview (id : ℕ) (f : Review → Review) : List Review → List Review
  | [] => []
  | r :: rs => if r.id = id then f r :: rs else r :: updateFirstReview id f rs

/-- Source `voteHelpful` (lines 865–897): early return when the id is already
in the voted set; otherwise add it to the set, persist the set to
localStorage, optimistically bump the matching review counter, re-render, and
POST the vote (fire and forget). -/
def voteHelpful (s : CompState) (reviewId : ℕ) (vote : Vote) : CompState :=
  if reviewId ∈ s.votedReviews then s
  else
    let voted := reviewId :: s.votedReviews
    let revs := updateFirstReview reviewId
      (fun r =>
        match vote with
        | Vote.up => { r with votes_up := r.votes_up + 1 }
        | Vote.down => { r with votes_down := r.votes_down + 1 }) s.reviews
    { s with
        votedReviews := voted
        storedVotes := voted
        reviews := revs
        view := RenderedView.main
        voteRequests := s.voteRequests ++ [(reviewId, vote)] }

/-- Source `toggleForm` (lines 578–581). -/
def toggleForm (s : CompState) : CompState :=
  { s with showForm := ¬s.showForm, view := RenderedView.main }

/-- The synchronous part of `submitReview` (lines 500–539): a missing score
shows the validation message and returns without a network call; otherwise
the submission POST is issued. -/
def submitReviewStart (s : CompState) (form : ReviewFormData) : CompState :=
  match form.score with
  | none => { s with formMessage := some "Please select a star rating" }
  | some _ => { s with reviewSubmits := s.reviewSubmits + 1 }

/-- `distribution[String(star)] || 0`. -/
def countOf (dist : List (ℕ × ℕ)) (star : ℕ) : ℕ :=
  (dist.lookup star).getD 0

/-- The histogram bar widths (percentages) produced by `#renderHistogram`
(lines 297–337): `none` when there is no bottomline or no distribution (the
method returns the empty string); otherwise, for stars 5 down to 1,
`count / total * 100` with `total = total_review || 1`. -/
def histogramWidths (bottomline : Option Bottomline) : Option (List ℚ) :=
  match bottomline with
  | none => none
  | some b =>
    match b.star_distribution with
    | none => none
    | some dist =>
      let total : ℕ := if b.total_review = 0 then 1 else b.total_review
      some (([5, 4, 3, 2, 1] : List ℕ).map
        (fun star => ((countOf dist star : ℚ) / (total : ℚ)) * 100))

/-- A user-facing operation of the component, as dispatched by the action
handlers of the source. `fetchDone` / `fetchFail` are the continuations of an
in-flight listing fetch. -/
inductive UIAction where
  | refetch
  | fetchDone (b : Option Bottomline) (revs : List Review) (pg : Option Pagination)
  | fetchFail (msg : String)
  | sortChange (value : String)
  | starFilter (star : ℕ)
  | clearFilter
  | goPage (p : ℕ)
  | vote (id : ℕ) (v : Vote)
  | toggle
  | submit (form : ReviewFormData)
deriving DecidableEq, Repr

/-- Dispatch one action to its handler. -/
def applyAction (s : CompState) : UIAction → CompState
  | UIAction.refetch => fetchReviewsStart s
  | UIAction.fetchDone b revs pg => fetchReviewsSuccess s b revs pg
  | UIAction.fetchFail msg => fetchReviewsFailure s msg
  | UIAction.sortChange value => handleSort s value
  | UIAction.starFilter star => filterByStar s star
  | UIAction.clearFilter => clearStarFilter s
  | UIAction.goPage p => goToPage s p
  | UIAction.vote id v => voteHelpful s id v
  | UIAction.toggle => toggleForm s
  | UIAction.submit form => submitReviewStart s form

/-- Run a sequence of actions. -/
def applyActions (s : CompState) (tr : List UIAction) : CompState :=
  tr.foldl applyAction s

/-- `#fetchReviews` never changes the current page. -/
theorem fetchReviewsStart_currentPage (s : CompState) :
    (fetchReviewsStart s).currentPage = s.currentPage := by
  rw [fetchReviewsStart]
  split <;> rfl

/-- Entering `#fetchReviews` bumps the call counter by one on every path. -/
theorem fetchReviewsStart_fetchCalls (s : CompState) :
    (fetchReviewsStart s).fetchCalls = s.fetchCalls + 1 := by
  rw [fetchReviewsStart]
  split <;> rfl

/-- `#fetchReviews` never changes the star filter. -/
theorem fetchReviewsStart_currentStarFilter (s : CompState) :
    (fetchReviewsStart s).currentStarFilter = s.currentStarFilter := by
  rw [fetchReviewsStart]
  split <;> rfl

/-- `#fetchReviews` never touches the voted set. -/
theorem fetchReviewsStart_votedReviews (s : CompState) :
    (fetchReviewsStart s).votedReviews = s.votedReviews := by
  rw [fetchReviewsStart]
  split <;> rfl

/-- `#fetchReviews` never scrolls. -/
theorem fetchReviewsStart_scrollCalls (s : CompState) :
    (fetchReviewsStart s).scrollCalls = s.scrollCalls := by
  rw [fetchReviewsStart]
  split <;> rfl

/-- A concrete component state used to instantiate theorems with hypotheses. -/
def sampleState : CompState :=
  { appKey := "abc"
    productId := "123"
    bottomline := some
      { total_review := 25, average_score := 4,
        star_distribution := some [(5, 10), (4, 8), (3, 4), (2, 2), (1, 1)] }
    reviews := [{ id := 7, title := "Great", content := "Loved it", score := 5,
                  display_name := "A", verified_buyer := true,
                  created_at := "2024-01-01", votes_up := 2, votes_down := 0 }]
    pagination := some { page := 1, per_page := 10, total := 25 }
    currentSort := "date"
    currentDirection := "desc"
    currentStarFilter := none
    currentPage := 1
    isLoading := false
    showForm := false
    votedReviews := [7]
    storedVotes := [7]
    view := RenderedView.main
    formMessage := none
    fetchCalls := 0
    listingRequests := []
    voteRequests := []
    reviewSubmits := 0
    scrollCalls := 0
    controllerGen := 0 }

/-- C4: once a review id is in the voted set, `voteHelpful` on it is a complete
no-op (no counter bump, no voted-set or localStorage change, no POST), and
voting twice on the same id has the same effect on state as voting once. -/
theorem voteHelpful_idempotent (s : CompState) (id : ℕ) (v w : Vote) :
    (id ∈ s.votedReviews → voteHelpful s id v = s)
    ∧ voteHelpful (voteHelpful s id v) id w = voteHelpful s id v := by
  constructor
  · intro h
    simp [voteHelpful, h]
  · by_cases h : id ∈ s.votedReviews
    · simp [voteHelpful, h]
    · simp only [voteHelpful, if_neg h]
      rw [if_pos]
      exact List.mem_cons_self _ _

/-- Witness for C4, on the sample state whose voted set holds id 7. -/
theorem voteHelpful_idempotent_witness :
    (7 : ℕ) ∈ sampleState.votedReviews
    ∧ voteHelpful sampleState 7 Vote.up = sampleState :=
  ⟨by decide, (voteHelpful_idempotent sampleState 7 Vote.up Vote.up).1 (by decide)⟩

/-- C5: with a missing app key or product id, `#fetchReviews` renders the
error view and returns: no request is issued, and the loading flag, summary,
review list, pagination and abort controller are all left unchanged. -/
theorem fetchReviews_missing_ids (s : CompState)
    (h : s.appKey = "" ∨ s.productId = "") :
    (fetchReviewsStart s).view
        = RenderedView.error "Missing app-key or product-id attribute"
    ∧ (fetchReviewsStart s).listingRequests = s.listingRequests
    ∧ (fetchReviewsStart s).isLoading = s.isLoading
    ∧ (fetchReviewsStart s).bottomline = s.bottomline
    ∧ (fetchReviewsStart s).reviews = s.reviews
    ∧ (fetchReviewsStart s).pagination = s.pagination
    ∧ (fetchReviewsStart s).controllerGen = s.controllerGen := by
  rw [fetchReviewsStart]
  rw [if_pos h]
  exact ⟨rfl, rfl, rfl, rfl, rfl, rfl, rfl⟩

/-- Witness for C5, on the sample state with its app key emptied. -/
theorem fetchReviews_missing_ids_witness :
    ({ sampleState with appKey := "" } : CompState).appKey = ""
    ∧ (fetchReviewsStart { sampleState with appKey := "" }).view
        = RenderedView.error "Missing app-key or product-id attribute"
    ∧ (fetchReviewsStart { sampleState with appKey := "" }).listingRequests
        = ({ sampleState with appKey := "" } : CompState).listingRequests :=
  ⟨rfl, (fetchReviews_missing_ids _ (Or.inl rfl)).1,
    (fetchReviews_missing_ids _ (Or.inl rfl)).2.1⟩

/-- C6: every sort change and star-filter change resets the page to 1 and
calls `#fetchReviews`; selecting the active star clears the filter, selecting
a different star sets it; `clearStarFilter` clears it. -/
theorem sortFilter_resets_page (s : CompState) (value : String) (star : ℕ) :
    ((handleSort s value).currentPage = 1
      ∧ (handleSort s value).fetchCalls = s.fetchCalls + 1)
    ∧ ((filterByStar s star).currentPage = 1
      ∧ (filterByStar s star).fetchCalls = s.fetchCalls + 1
      ∧ (filterByStar s star).currentStarFilter =
          (if s.currentStarFilter = some star then none else some star))
    ∧ ((clearStarFilter s).currentPage = 1
      ∧ (clearStarFilter s).fetchCalls = s.fetchCalls + 1
      ∧ (clearStarFilter s).currentStarFilter = none) := by
  refine ⟨⟨?_, ?_⟩, ⟨?_, ?_, ?_⟩, ⟨?_, ?_, ?_⟩⟩
  · simp [handleSort, fetchReviewsStart_currentPage]
  · simp [handleSort, fetchReviewsStart_fetchCalls]
  · by_cases hfs : s.currentStarFilter = some star <;>
      simp [filterByStar, hfs, fetchReviewsStart_currentPage]
  · by_cases hfs : s.currentStarFilter = some star <;>
      simp [filterByStar, hfs, fetchReviewsStart_fetchCalls]
  · by_cases hfs : s.currentStarFilter = some star <;>
      simp [filterByStar, hfs, fetchReviewsStart_currentStarFilter]
  · simp [clearStarFilter, fetchReviewsStart_currentPage]
  · simp [clearStarFilter, fetchReviewsStart_fetchCalls]
  · simp [clearStarFilter, fetchReviewsStart_currentStarFilter]

/-- C7: `goToPage` with a page outside `[1, totalPages]` is a complete no-op;
inside the range it sets the page, calls `#fetchReviews`, and scrolls the
component into view. -/
theorem goToPage_spec (s : CompState) (p : ℕ) :
    ((p < 1 ∨ totalPagesOf s < p) → goToPage s p = s)
    ∧ (1 ≤ p → p ≤ totalPagesOf s →
        (goToPage s p).currentPage = p
        ∧ (goToPage s p).fetchCalls = s.fetchCalls + 1
        ∧ (goToPage s p).scrollCalls = s.scrollCalls + 1) := by
  constructor
  · intro h
    rw [goToPage, if_pos h]
  · intro h1 h2
    have hn : ¬ (p < 1 ∨ totalPagesOf s < p) := by omega
    simp only [goToPage, if_neg hn]
    exact ⟨by simp [fetchReviewsStart_currentPage],
           by simp [fetchReviewsStart_fetchCalls],
           by simp [fetchReviewsStart_scrollCalls]⟩

/-- Witness for C7: on the sample state (25 items, 3 pages), page 0 is a
no-op and page 2 navigates. -/
theorem goToPage_spec_witness :
    goToPage sampleState 0 = sampleState
    ∧ (goToPage sampleState 2).currentPage = 2
    ∧ (goToPage sampleState 2).fetchCalls = sampleState.fetchCalls + 1
    ∧ (goToPage sampleState 2).scrollCalls = sampleState.scrollCalls + 1 :=
  ⟨(goToPage_spec sampleState 0).1 (by decide),
    (goToPage_spec sampleState 2).2 (by decide) (by decide)⟩

/-- C8: histogram bar widths are `count / total * 100` for stars 5 down to 1
with a zero total treated as 1, so the denominator is always positive and a
(consistent) zero-total summary yields all-zero widths. -/
theorem renderHistogram_widths (b : Bottomline) (dist : List (ℕ × ℕ))
    (hd : b.star_distribution = some dist)
    (hcount : ∀ st ∈ ([5, 4, 3, 2, 1] : List ℕ), countOf dist st ≤ b.total_review) :
    (0 < if b.total_review = 0 then 1 else b.total_review)
    ∧ histogramWidths (some b) =
        some (([5, 4, 3, 2, 1] : List ℕ).map
          (fun star => ((countOf dist star : ℚ)
              / (((if b.total_review = 0 then 1 else b.total_review) : ℕ) : ℚ)) * 100))
    ∧ (b.total_review = 0 → histogramWidths (some b) = some [0, 0, 0, 0, 0]) := by
  refine ⟨by split <;> omega, ?_, ?_⟩
  · simp [histogramWidths, hd]
  · intro h0
    have h5 : countOf dist 5 = 0 := Nat.le_zero.mp (h0 ▸ hcount 5 (by decide))
    have h4 : countOf dist 4 = 0 := Nat.le_zero.mp (h0 ▸ hcount 4 (by decide))
    have h3 : countOf dist 3 = 0 := Nat.le_zero.mp (h0 ▸ hcount 3 (by decide))
    have h2 : countOf dist 2 = 0 := Nat.le_zero.mp (h0 ▸ hcount 2 (by decide))
    have h1 : countOf dist 1 = 0 := Nat.le_zero.mp (h0 ▸ hcount 1 (by decide))
    simp [histogramWidths, hd, h0, h5, h4, h3, h2, h1]

/-- Witness for C8, on an empty zero-total summary. -/
theorem renderHistogram_widths_witness :
    histogramWidths
        (some { total_review := 0, average_score := 0, star_distribution := some [] })
      = some [0, 0, 0, 0, 0] :=
  (renderHistogram_widths
      { total_review := 0, average_score := 0, star_distribution := some [] }
      [] rfl (by decide)).2.2 rfl

/-- One action never removes an id from the voted set. -/
theorem applyAction_votedReviews_mono (s : CompState) (a : UIAction) (x : ℕ)
    (hx : x ∈ s.votedReviews) : x ∈ (applyAction s a).votedReviews := by
  cases a with
  | refetch =>
    rw [applyAction, fetchReviewsStart_votedReviews]
    exact hx
  | fetchDone b revs pg => exact hx
  | fetchFail msg => exact hx
  | sortChange value =>
    rw [applyAction]
    rw [show (handleSort s value).votedReviews = s.votedReviews by
      simp [handleSort, fetchReviewsStart_votedReviews]]
    exact hx
  | starFilter star =>
    rw [applyAction]
    rw [show (filterByStar s star).votedReviews = s.votedReviews by
      by_cases hfs : s.currentStarFilter = some star <;>
        simp [filterByStar, hfs, fetchReviewsStart_votedReviews]]
    exact hx
  | clearFilter =>
    rw [applyAction]
    rw [show (clearStarFilter s).votedReviews = s.votedReviews by
      simp [clearStarFilter, fetchReviewsStart_votedReviews]]
    exact hx
  | goPage p =>
    rw [applyAction, goToPage]
    split
    · exact hx
    · rw [show ∀ s2 : CompState,
          ({ s2 with scrollCalls := s2.scrollCalls + 1 } : CompState).votedReviews
            = s2.votedReviews from fun s2 => rfl]
      rw [fetchReviewsStart_votedReviews]
      exact hx
  | vote id v =>
    rw [applyAction, voteHelpful]
    split
    · exact hx
    · exact List.mem_cons_of_mem _ hx
  | toggle => exact hx
  | submit form =>
    rw [applyAction, submitReviewStart]
    cases form.score <;> exact hx

/-- A whole session of actions never removes an id from the voted set. -/
theorem applyActions_votedReviews_mono (tr : List UIAction) (s : CompState) (x : ℕ)
    (hx : x ∈ s.votedReviews) : x ∈ (applyActions s tr).votedReviews := by
  induction tr generalizing s with
  | nil => exact hx
  | cons a tl ih => exact ih (applyAction s a) (applyAction_votedReviews_mono s a x hx)

/-- C9: the voted set only grows under every component operation; an id once
voted stays voted after any sequence of operations, and voting on it then is
still an early-return no-op. -/
theorem votedReviews_never_shrinks (s : CompState) (a : UIAction) (tr : List UIAction)
    (id : ℕ) (v : Vote) :
    (∀ x ∈ s.votedReviews, x ∈ (applyAction s a).votedReviews)
    ∧ (id ∈ s.votedReviews → id ∈ (applyActions s tr).votedReviews)
    ∧ (id ∈ s.votedReviews → voteHelpful (applyActions s tr) id v = applyActions s tr) := by
  refine ⟨fun x hx => applyAction_votedReviews_mono s a x hx,
          fun h => applyActions_votedReviews_mono tr s id h,
          fun h => ?_⟩
  have hmem := applyActions_votedReviews_mono tr s id h
  simp [voteHelpful, hmem]

/-- Witness for C9: id 7, voted in the sample state, survives a form toggle
and a refetch, and voting on it afterwards is a no-op. -/
theorem votedReviews_never_shrinks_witness :
    (7 : ℕ) ∈ sampleState.votedReviews
    ∧ voteHelpful (applyActions sampleState [UIAction.toggle, UIAction.refetch]) 7 Vote.up
        = applyActions sampleState [UIAction.toggle, UIAction.refetch] :=
  ⟨by decide,
    (votedReviews_never_shrinks sampleState UIAction.toggle
        [UIAction.toggle, UIAction.refetch] 7 Vote.up).2.2 (by decide)⟩

/-- An event of the listing-fetch protocol, interleaved on the single JS event
loop: `issue` is a call to `#fetchReviews` that passes the identifier guard
(lines 195–204: abort the prior controller, create a new one, start the
request); `deliver id` is the event-loop turn in which the response to
request `id` settles and its continuation (lines 206–228) runs. A fetch whose
abort signal fired rejects with `AbortError`, which the catch block
(lines 222–224) returns on without touching state. -/
inductive FetchEvent where
  | issue
  | deliver (id : ℕ)
deriving DecidableEq, Repr

/-- The fetch-controller state. Requests are numbered in issue order:
`current` is the id owned by `this.#abortController`, `abortedIds` are the
ids whose controllers have had `abort()` called, and `applied` is the id of
the request whose response currently populates `#bottomline`, `#reviews` and
`#pagination` (`none` before any response is applied). -/
structure FetchSys where
  nextId : ℕ
  current : Option ℕ
  abortedIds : List ℕ
  applied : Option ℕ
deriving DecidableEq, Repr

/-- The initial state: no request issued yet (`#abortController = null`). -/
def FetchSys.start : FetchSys :=
  { nextId := 0, current := none, abortedIds := [], applied := none }

/-- One protocol step. `issue` mirrors lines 195–196
(`this.#abortController?.abort(); this.#abortController = new AbortController()`);
`deliver` mirrors lines 202–228: a request whose signal was aborted rejects
and the handler returns with state untouched, otherwise the three data
collections are replaced from this response. -/
def fetchStep (s : FetchSys) : FetchEvent → FetchSys
  | FetchEvent.issue =>
    { nextId := s.nextId + 1
      current := some s.nextId
      abortedIds :=
        match s.current with
        | some i => i :: s.abortedIds
        | none => s.abortedIds
      applied := s.applied }
  | FetchEvent.deliver id =>
    if id ∈ s.abortedIds then s
    else { s with applied := some id }

/-- Run a sequence of fetch events from the initial state. -/
def runFetch (tr : List FetchEvent) : FetchSys :=
  tr.foldl fetchStep FetchSys.start

/-- Protocol invariant: the live controller is the latest issued request, and
a request is aborted exactly when a later one has been issued. -/
def FetchInv (s : FetchSys) : Prop :=
  (s.current = if s.nextId = 0 then none else some (s.nextId - 1))
  ∧ ∀ i, i ∈ s.abortedIds ↔ i + 1 < s.nextId

/-- The initial state satisfies the invariant. -/
theorem fetchInv_start : FetchInv FetchSys.start :=
  ⟨rfl, fun i => by simp [FetchSys.start]⟩

/-- Every step preserves the invariant. -/
theorem fetchInv_step (s : FetchSys) (e : FetchEvent) (h : FetchInv s) :
    FetchInv (fetchStep s e) := by
  obtain ⟨hcur, hmem⟩ := h
  cases e with
  | issue =>
    refine ⟨by simp [fetchStep], fun i => ?_⟩
    by_cases h0 : s.nextId = 0
    · rw [if_pos h0] at hcur
      simp only [fetchStep, hcur]
      rw [hmem i]
      omega
    · rw [if_neg h0] at hcur
      simp only [fetchStep, hcur, List.mem_cons]
      constructor
      · rintro (rfl | hi)
        · omega
        · have := (hmem i).mp hi
          omega
      · intro hlt
        by_cases hieq : i = s.nextId - 1
        · exact Or.inl hieq
        · exact Or.inr ((hmem i).mpr (by omega))
  | deliver id =>
    by_cases hid : id ∈ s.abortedIds
    · simp only [fetchStep, if_pos hid]
      exact ⟨hcur, hmem⟩
    · simp only [fetchStep, if_neg hid]
      exact ⟨hcur, hmem⟩

/-- The invariant holds in every reachable state. -/
theorem fetchInv_run (tr : List FetchEvent) : FetchInv (runFetch tr) := by
  suffices h : ∀ s, FetchInv s → FetchInv (tr.foldl fetchStep s) from h _ fetchInv_start
  induction tr with
  | nil => exact fun s hs => hs
  | cons e tl ih => exact fun s hs => ih (fetchStep s e) (fetchInv_step s e hs)

/-- C3: in any interleaving of overlapping listing fetches, a response to a
superseded request (one that is not the most recently issued) is discarded
without touching any state, the response to the most recently issued request
is the one applied to the summary / review-list / pagination state, and each
new fetch aborts the still-pending prior one. -/
theorem fetch_last_write_wins (tr : List FetchEvent) (a : ℕ) :
    (a + 1 < (runFetch tr).nextId →
      fetchStep (runFetch tr) (FetchEvent.deliver a) = runFetch tr)
    ∧ (a + 1 = (runFetch tr).nextId →
      (fetchStep (runFetch tr) (FetchEvent.deliver a)).applied = some a)
    ∧ (∀ c, (runFetch tr).current = some c →
      c ∈ (fetchStep (runFetch tr) FetchEvent.issue).abortedIds) := by
  obtain ⟨hcur, hmem⟩ := fetchInv_run tr
  refine ⟨fun hlt => ?_, fun heq => ?_, fun c hc => ?_⟩
  · have ha : a ∈ (runFetch tr).abortedIds := (hmem a).mpr hlt
    simp [fetchStep, ha]
  · have ha : a ∉ (runFetch tr).abortedIds := fun hin => by
      have := (hmem a).mp hin
      omega
    simp [fetchStep, ha]
  · simp [fetchStep, hc]

/-- Witness for C3: after two overlapping fetches, the late response to the
first is dropped whole, the response to the second is applied, and the second
issue aborted the first. -/
theorem fetch_last_write_wins_witness :
    fetchStep (runFetch [FetchEvent.issue, FetchEvent.issue]) (FetchEvent.deliver 0)
        = runFetch [FetchEvent.issue, FetchEvent.issue]
    ∧ (fetchStep (runFetch [FetchEvent.issue, FetchEvent.issue])
        (FetchEvent.deliver 1)).applied = some 1
    ∧ (0 : ℕ) ∈ (fetchStep (runFetch [FetchEvent.issue]) FetchEvent.issue).abortedIds :=
  ⟨(fetch_last_write_wins [FetchEvent.issue, FetchEvent.issue] 0).1 (by decide),
    (fetch_last_write_wins [FetchEvent.issue, FetchEvent.issue] 1).2.1 (by decide),
    (fetch_last_write_wins [FetchEvent.issue] 0).2.2 0 (by decide)⟩
